import Mathlib

/-!
Verification of the role-based access control module `src/utils/permissions.ts`
of the ka-eco urban wetlands dashboard.

The module is a pure, stateless function library: two static tables
(`ROLE_PERMISSIONS`, `DASHBOARD_SECTIONS`), a numeric rank table
(`ROLE_HIERARCHY`), and five query operations (`hasPermission`,
`canAccessSection`, `getAllowedSections`, `hasHigherOrEqualRole`,
`getUserCapabilities`).

Shallow embedding notes:
* Roles arrive as arbitrary strings at the indexing sites
  (`ROLE_PERMISSIONS[userRole]`, `DASHBOARD_SECTIONS[userRole]`,
  `ROLE_HIERARCHY[userRole]`), so table lookup is modelled as
  `String → Option _`; JavaScript's `obj[key] || []` fallback becomes
  `Option.getD _ []`.
* In `hasHigherOrEqualRole` the source compares
  `ROLE_HIERARCHY[userRole] >= ROLE_HIERARCHY[requiredRole]` directly:
  when either lookup is `undefined` the JavaScript `>=` comparison is
  `false` (NaN semantics), which the embedding renders as a `match` on the
  two `Option Nat` values returning `false` unless both are present.
-/

namespace KaEco

/-- `Permission` interface: an `(action, resource)` pair of strings. -/
structure Permission where
  action : String
  resource : String
deriving DecidableEq, Repr

/-- `ROLE_PERMISSIONS.admin` entry, transcribed in declared order. -/
def adminPermissions : List Permission := [
  -- User management
  ⟨"create", "users"⟩,
  ⟨"read", "users"⟩,
  ⟨"update", "users"⟩,
  ⟨"delete", "users"⟩,
  ⟨"manage_roles", "users"⟩,
  -- Wetland management
  ⟨"create", "wetlands"⟩,
  ⟨"read", "wetlands"⟩,
  ⟨"update", "wetlands"⟩,
  ⟨"delete", "wetlands"⟩,
  -- Sensor management
  ⟨"create", "sensors"⟩,
  ⟨"read", "sensors"⟩,
  ⟨"update", "sensors"⟩,
  ⟨"delete", "sensors"⟩,
  ⟨"configure", "sensors"⟩,
  -- System management
  ⟨"read", "system_logs"⟩,
  ⟨"read", "audit_logs"⟩,
  ⟨"manage", "system_settings"⟩,
  ⟨"backup", "system"⟩,
  -- Analytics and reporting
  ⟨"read", "analytics"⟩,
  ⟨"export", "data"⟩,
  -- Alerts
  ⟨"create", "alerts"⟩,
  ⟨"read", "alerts"⟩,
  ⟨"update", "alerts"⟩,
  ⟨"delete", "alerts"⟩,
  -- Community reports
  ⟨"read", "community_reports"⟩,
  ⟨"update", "community_reports"⟩,
  ⟨"assign", "community_reports"⟩,
  -- Projects
  ⟨"create", "projects"⟩,
  ⟨"read", "projects"⟩,
  ⟨"update", "projects"⟩,
  ⟨"delete", "projects"⟩,
  ⟨"assign", "projects"⟩]

/-- `ROLE_PERMISSIONS.researcher` entry, transcribed in declared order. -/
def researcherPermissions : List Permission := [
  -- Wetland data
  ⟨"read", "wetlands"⟩,
  ⟨"create", "observations"⟩,
  ⟨"read", "observations"⟩,
  ⟨"update", "observations"⟩,
  -- Sensor data
  ⟨"read", "sensors"⟩,
  ⟨"read", "sensor_data"⟩,
  -- Analytics
  ⟨"read", "analytics"⟩,
  ⟨"export", "research_data"⟩,
  -- Projects
  ⟨"create", "projects"⟩,
  ⟨"read", "projects"⟩,
  ⟨"update", "own_projects"⟩,
  -- Community reports (view and comment)
  ⟨"read", "community_reports"⟩,
  ⟨"comment", "community_reports"⟩]

/-- `ROLE_PERMISSIONS.government_official` entry, transcribed in declared order. -/
def governmentOfficialPermissions : List Permission := [
  -- Wetland oversight
  ⟨"read", "wetlands"⟩,
  ⟨"create", "wetlands"⟩,
  ⟨"update", "wetlands"⟩,
  -- Regulatory data
  ⟨"read", "sensors"⟩,
  ⟨"read", "sensor_data"⟩,
  ⟨"read", "observations"⟩,
  -- Analytics and reporting
  ⟨"read", "analytics"⟩,
  ⟨"export", "compliance_data"⟩,
  -- Community reports
  ⟨"read", "community_reports"⟩,
  ⟨"update", "community_reports"⟩,
  ⟨"assign", "community_reports"⟩,
  -- Projects oversight
  ⟨"read", "projects"⟩,
  ⟨"approve", "projects"⟩,
  -- Alerts
  ⟨"read", "alerts"⟩,
  ⟨"acknowledge", "alerts"⟩]

/-- `ROLE_PERMISSIONS.community_member` entry, transcribed in declared order. -/
def communityMemberPermissions : List Permission := [
  -- Basic wetland info
  ⟨"read", "wetlands_basic"⟩,
  -- Community reporting
  ⟨"create", "community_reports"⟩,
  ⟨"read", "own_reports"⟩,
  ⟨"update", "own_reports"⟩,
  -- Public data
  ⟨"read", "public_data"⟩,
  -- Educational content
  ⟨"read", "educational_content"⟩]

/-- The `ROLE_PERMISSIONS` record, indexed by an arbitrary role string;
`none` models JavaScript `undefined` for an unknown key. -/
def ROLE_PERMISSIONS (role : String) : Option (List Permission) :=
  if role = "admin" then some adminPermissions
  else if role = "researcher" then some researcherPermissions
  else if role = "government_official" then some governmentOfficialPermissions
  else if role = "community_member" then some communityMemberPermissions
  else none

/-- The `DASHBOARD_SECTIONS` record, indexed by an arbitrary role string. -/
def DASHBOARD_SECTIONS (role : String) : Option (List String) :=
  if role = "admin" then some [
    "overview",
    "user_management",
    "wetland_management",
    "sensor_management",
    "system_monitoring",
    "analytics",
    "community_reports",
    "alerts",
    "projects",
    "settings",
    "audit_logs"]
  else if role = "researcher" then some [
    "overview",
    "research_data",
    "observations",
    "analytics",
    "projects",
    "community_reports"]
  else if role = "government_official" then some [
    "overview",
    "compliance",
    "wetlands",
    "analytics",
    "community_reports",
    "projects",
    "regulatory_reports"]
  else if role = "community_member" then some [
    "overview",
    "local_wetlands",
    "report_issue",
    "educational_resources"]
  else none

/-- `hasPermission(userRole, action, resource)`:
`(ROLE_PERMISSIONS[userRole] || []).some(p => p.action === action && p.resource === resource)`. -/
def hasPermission (userRole action resource : String) : Bool :=
  let permissions := (ROLE_PERMISSIONS userRole).getD []
  permissions.any fun permission =>
    permission.action == action && permission.resource == resource

/-- `canAccessSection(userRole, section)`:
`(DASHBOARD_SECTIONS[userRole] || []).includes(section)`. -/
def canAccessSection (userRole sectionName : String) : Bool :=
  let sections := (DASHBOARD_SECTIONS userRole).getD []
  sections.contains sectionName

/-- `getAllowedSections(userRole)`: `DASHBOARD_SECTIONS[userRole] || []`. -/
def getAllowedSections (userRole : String) : List String :=
  (DASHBOARD_SECTIONS userRole).getD []

/-- The `ROLE_HIERARCHY` record, indexed by an arbitrary role string. -/
def ROLE_HIERARCHY (role : String) : Option Nat :=
  if role = "admin" then some 4
  else if role = "government_official" then some 3
  else if role = "researcher" then some 2
  else if role = "community_member" then some 1
  else none

/-- `hasHigherOrEqualRole(userRole, requiredRole)`:
`ROLE_HIERARCHY[userRole] >= ROLE_HIERARCHY[requiredRole]`.
A JavaScript `>=` comparison in which either side is `undefined` evaluates
to `false`, hence the catch-all arm. -/
def hasHigherOrEqualRole (userRole requiredRole : String) : Bool :=
  match ROLE_HIERARCHY userRole, ROLE_HIERARCHY requiredRole with
  | some a, some b => a ≥ b
  | _, _ => false

/-- Result record of `getUserCapabilities`. -/
structure UserCapabilities where
  canManageUsers : Bool
  canManageWetlands : Bool
  canManageSensors : Bool
  canViewAnalytics : Bool
  canExportData : Bool
  canManageSystem : Bool
  canViewAuditLogs : Bool
  canAssignReports : Bool
  canManageProjects : Bool
deriving DecidableEq, Repr

/-- `getUserCapabilities(role)`: nine named flags, each one `hasPermission`
call on a fixed canonical pair. -/
def getUserCapabilities (role : String) : UserCapabilities :=
  { canManageUsers := hasPermission role "manage_roles" "users"
    canManageWetlands := hasPermission role "delete" "wetlands"
    canManageSensors := hasPermission role "configure" "sensors"
    canViewAnalytics := hasPermission role "read" "analytics"
    canExportData := hasPermission role "export" "data"
    canManageSystem := hasPermission role "manage" "system_settings"
    canViewAuditLogs := hasPermission role "read" "audit_logs"
    canAssignReports := hasPermission role "assign" "community_reports"
    canManageProjects := hasPermission role "delete" "projects" }

/-- The closed 4-member role set of the `UserRole` union type. -/
def knownRoles : List String :=
  ["admin", "researcher", "government_official", "community_member"]

/-! Helper lemmas shared by the claim theorems. -/

/-- `hasPermission` is exactly membership of the `(action, resource)` pair in
the role's permission list (empty for unknown roles). -/
lemma hasPermission_iff_mem (R a r : String) :
    hasPermission R a r = true ↔
      (⟨a, r⟩ : Permission) ∈ (ROLE_PERMISSIONS R).getD [] := by
  simp only [hasPermission, List.any_eq_true, Bool.and_eq_true, beq_iff_eq]
  constructor
  · rintro ⟨⟨pa, pr⟩, hp, h1, h2⟩
    subst h1
    subst h2
    exact hp
  · intro h
    exact ⟨⟨a, r⟩, h, rfl, rfl⟩

/-- A role string outside the closed 4-member set indexes no entry of
`ROLE_PERMISSIONS`. -/
lemma ROLE_PERMISSIONS_unknown (R : String) (hR : R ∉ knownRoles) :
    ROLE_PERMISSIONS R = none := by
  simp only [knownRoles, List.mem_cons, List.not_mem_nil, or_false, not_or] at hR
  obtain ⟨h1, h2, h3, h4⟩ := hR
  simp [ROLE_PERMISSIONS, h1, h2, h3, h4]

/-- A role string outside the closed 4-member set indexes no entry of
`DASHBOARD_SECTIONS`. -/
lemma DASHBOARD_SECTIONS_unknown (R : String) (hR : R ∉ knownRoles) :
    DASHBOARD_SECTIONS R = none := by
  simp only [knownRoles, List.mem_cons, List.not_mem_nil, or_false, not_or] at hR
  obtain ⟨h1, h2, h3, h4⟩ := hR
  simp [DASHBOARD_SECTIONS, h1, h2, h3, h4]

/-- A role string outside the closed 4-member set indexes no entry of
`ROLE_HIERARCHY`. -/
lemma ROLE_HIERARCHY_unknown (R : String) (hR : R ∉ knownRoles) :
    ROLE_HIERARCHY R = none := by
  simp only [knownRoles, List.mem_cons, List.not_mem_nil, or_false, not_or] at hR
  obtain ⟨h1, h2, h3, h4⟩ := hR
  simp [ROLE_HIERARCHY, h1, h2, h3, h4]

/-- `hasHigherOrEqualRole` is `false` whenever the required role has no rank. -/
lemma hasHigherOrEqualRole_right_none (x y : String)
    (hy : ROLE_HIERARCHY y = none) : hasHigherOrEqualRole x y = false := by
  unfold hasHigherOrEqualRole
  rw [hy]
  cases ROLE_HIERARCHY x <;> rfl

/-- `hasHigherOrEqualRole` is `false` whenever the user role has no rank. -/
lemma hasHigherOrEqualRole_left_none (x y : String)
    (hx : ROLE_HIERARCHY x = none) : hasHigherOrEqualRole x y = false := by
  unfold hasHigherOrEqualRole
  rw [hx]

/-! The claims. -/

/-- C1: exact-match semantics of `hasPermission` — for every known role and
every `(action, resource)` pair of strings, `hasPermission` returns `true`
iff the pair appears verbatim (case-sensitive equality on both fields) in
that role's entry of the `ROLE_PERMISSIONS` table. -/
theorem C1_hasPermission_exact_match (R a r : String) (_hR : R ∈ knownRoles) :
    hasPermission R a r = true ↔
      (⟨a, r⟩ : Permission) ∈ (ROLE_PERMISSIONS R).getD [] :=
  hasPermission_iff_mem R a r

/-- C1 witness: the exact-match equivalence instantiated at
`('admin', 'delete', 'users')`. -/
theorem C1_hasPermission_exact_match_witness :
    "admin" ∈ knownRoles ∧
      (hasPermission "admin" "delete" "users" = true ↔
        (⟨"delete", "users"⟩ : Permission) ∈ (ROLE_PERMISSIONS "admin").getD []) :=
  ⟨by decide, C1_hasPermission_exact_match "admin" "delete" "users" (by decide)⟩

/-- C2: unknown-role safety and totality — for any role string outside the
closed 4-member set and arbitrary action/resource/section strings,
`hasPermission` and `canAccessSection` return `false` and
`getAllowedSections` returns the empty list; all three are total Lean
functions, so no input makes them fail. -/
theorem C2_unknown_role_safety (R : String) (hR : R ∉ knownRoles)
    (a r s : String) :
    hasPermission R a r = false ∧ canAccessSection R s = false ∧
      getAllowedSections R = [] := by
  refine ⟨?_, ?_, ?_⟩
  · simp [hasPermission, ROLE_PERMISSIONS_unknown R hR]
  · simp [canAccessSection, DASHBOARD_SECTIONS_unknown R hR]
  · simp [getAllowedSections, DASHBOARD_SECTIONS_unknown R hR]

/-- C2 witness: unknown-role safety instantiated at the role
`'bogus_role'` with the query `('read', 'wetlands')` and section
`'overview'`. -/
theorem C2_unknown_role_safety_witness :
    "bogus_role" ∉ knownRoles ∧
      (hasPermission "bogus_role" "read" "wetlands" = false ∧
        canAccessSection "bogus_role" "overview" = false ∧
        getAllowedSections "bogus_role" = []) :=
  ⟨by decide, C2_unknown_role_safety "bogus_role" (by decide) "read" "wetlands" "overview"⟩

/-- C3: capability consistency — for every role string, each of the nine
flags of `getUserCapabilities` equals `hasPermission` at its fixed canonical
pair, and in particular `getUserCapabilities 'government_official'` has
`canManageUsers = false`. -/
theorem C3_capability_consistency :
    (∀ R : String,
      (getUserCapabilities R).canManageUsers = hasPermission R "manage_roles" "users" ∧
      (getUserCapabilities R).canManageWetlands = hasPermission R "delete" "wetlands" ∧
      (getUserCapabilities R).canManageSensors = hasPermission R "configure" "sensors" ∧
      (getUserCapabilities R).canViewAnalytics = hasPermission R "read" "analytics" ∧
      (getUserCapabilities R).canExportData = hasPermission R "export" "data" ∧
      (getUserCapabilities R).canManageSystem = hasPermission R "manage" "system_settings" ∧
      (getUserCapabilities R).canViewAuditLogs = hasPermission R "read" "audit_logs" ∧
      (getUserCapabilities R).canAssignReports = hasPermission R "assign" "community_reports" ∧
      (getUserCapabilities R).canManageProjects = hasPermission R "delete" "projects") ∧
    (getUserCapabilities "government_official").canManageUsers = false :=
  ⟨fun _ => ⟨rfl, rfl, rfl, rfl, rfl, rfl, rfl, rfl, rfl⟩, by decide⟩

/-- C4: rank comparison correctness — for all known roles,
`hasHigherOrEqualRole R1 R2` is `true` iff `rank R1 >= rank R2` under the
fixed ranks of `ROLE_HIERARCHY`; consequently it is reflexive on known
roles, `hasHigherOrEqualRole 'researcher' 'community_member'` is `true`,
and `hasHigherOrEqualRole 'community_member' 'researcher'` is `false`. -/
theorem C4_rank_comparison (R1 R2 : String)
    (h1 : R1 ∈ knownRoles) (h2 : R2 ∈ knownRoles) :
    (hasHigherOrEqualRole R1 R2 = true ↔
      (ROLE_HIERARCHY R1).getD 0 ≥ (ROLE_HIERARCHY R2).getD 0) ∧
    hasHigherOrEqualRole R1 R1 = true ∧
    hasHigherOrEqualRole "researcher" "community_member" = true ∧
    hasHigherOrEqualRole "community_member" "researcher" = false := by
  simp only [knownRoles, List.mem_cons, List.not_mem_nil, or_false] at h1 h2
  rcases h1 with rfl | rfl | rfl | rfl <;> rcases h2 with rfl | rfl | rfl | rfl <;>
    exact ⟨by decide, by decide, by decide, by decide⟩

/-- C4 witness: rank comparison instantiated at
`('admin', 'researcher')`. -/
theorem C4_rank_comparison_witness :
    ("admin" ∈ knownRoles ∧ "researcher" ∈ knownRoles) ∧
      ((hasHigherOrEqualRole "admin" "researcher" = true ↔
        (ROLE_HIERARCHY "admin").getD 0 ≥ (ROLE_HIERARCHY "researcher").getD 0) ∧
      hasHigherOrEqualRole "admin" "admin" = true ∧
      hasHigherOrEqualRole "researcher" "community_member" = true ∧
      hasHigherOrEqualRole "community_member" "researcher" = false) :=
  ⟨⟨by decide, by decide⟩,
    C4_rank_comparison "admin" "researcher" (by decide) (by decide)⟩

/-- C5: `getAllowedSections 'community_member'` is exactly
`['overview', 'local_wetlands', 'report_issue', 'educational_resources']`
in that order. -/
theorem C5_community_member_sections :
    getAllowedSections "community_member" =
      ["overview", "local_wetlands", "report_issue", "educational_resources"] := by
  decide

/-- C6: delete-users scenario — `hasPermission 'admin' 'delete' 'users'` is
`true` and `hasPermission 'community_member' 'delete' 'users'` is `false`. -/
theorem C6_delete_users_scenario :
    hasPermission "admin" "delete" "users" = true ∧
      hasPermission "community_member" "delete" "users" = false := by
  exact ⟨by decide, by decide⟩

/-- C7: user-management section gating —
`canAccessSection 'researcher' 'user_management'` is `false` and
`canAccessSection 'admin' 'user_management'` is `true`. -/
theorem C7_user_management_gating :
    canAccessSection "researcher" "user_management" = false ∧
      canAccessSection "admin" "user_management" = true := by
  exact ⟨by decide, by decide⟩

/-- C8: determinism and statelessness — every engine operation is a pure
function of its arguments (the embedding carries no state), so two calls
with the same arguments yield equal results; in particular repeated calls
of `getAllowedSections` on the same role return the same sequence. -/
theorem C8_determinism (R R2 a r s : String) :
    getAllowedSections R = getAllowedSections R ∧
    hasPermission R a r = hasPermission R a r ∧
    canAccessSection R s = canAccessSection R s ∧
    hasHigherOrEqualRole R R2 = hasHigherOrEqualRole R R2 ∧
    getUserCapabilities R = getUserCapabilities R :=
  ⟨rfl, rfl, rfl, rfl, rfl⟩

/-- C9: unknown roles are incomparable, not lowest — for any role string
outside the four known roles, `hasHigherOrEqualRole` returns `false` with
the unknown role on either side, against any other role string; in
particular even `hasHigherOrEqualRole 'admin' U` is `false`. -/
theorem C9_unknown_role_incomparable (U : String) (hU : U ∉ knownRoles)
    (R : String) :
    hasHigherOrEqualRole U R = false ∧ hasHigherOrEqualRole R U = false ∧
      hasHigherOrEqualRole "admin" U = false := by
  have hnone := ROLE_HIERARCHY_unknown U hU
  exact ⟨hasHigherOrEqualRole_left_none U R hnone,
    hasHigherOrEqualRole_right_none R U hnone,
    hasHigherOrEqualRole_right_none "admin" U hnone⟩

/-- C9 witness: incomparability instantiated at the unknown role
`'bogus_role'` against `'admin'`. -/
theorem C9_unknown_role_incomparable_witness :
    "bogus_role" ∉ knownRoles ∧
      (hasHigherOrEqualRole "bogus_role" "admin" = false ∧
        hasHigherOrEqualRole "admin" "bogus_role" = false ∧
        hasHigherOrEqualRole "admin" "bogus_role" = false) :=
  ⟨by decide, C9_unknown_role_incomparable "bogus_role" (by decide) "admin"⟩

/-- C10: higher rank does not imply a permission superset —
`hasPermission 'researcher' 'read' 'observations'` is `true` while
`hasPermission 'admin' 'read' 'observations'` is `false`, even though
`hasHigherOrEqualRole 'admin' 'researcher'` is `true`. -/
theorem C10_rank_not_superset :
    hasPermission "researcher" "read" "observations" = true ∧
      hasPermission "admin" "read" "observations" = false ∧
      hasHigherOrEqualRole "admin" "researcher" = true := by
  exact ⟨by decide, by decide, by decide⟩

end KaEco
